/-
Verification of the Evidence Cross-Examination & Verdict Synthesis Engine
(backend/app/agents/cross_examiner.py, hybrid_retriever.py, claim_decomposer.py
and backend/app/store/memory_store.py) against its natural-language
specification.

The Python modules are shallowly embedded: dictionaries become structures,
floats become rationals (the properties below are not about binary rounding),
Python's `str.lower` is modelled on the ASCII range (all labels, source names
and keywords compared in the code are ASCII or Sinhala, and Sinhala has no
case), and the external services (Pinecone, DuckDuckGo, Redis, PostgreSQL,
Google translate) are abstracted as explicit inputs or state maps.
-/
import Mathlib

/-! ## Generic string helpers (models of Python string primitives) -/

/-- Model of Python `str.lower` for a single character (ASCII range). -/
def lowerChar (c : Char) : Char :=
  if 'A' ≤ c ∧ c ≤ 'Z' then Char.ofNat (c.toNat + 32) else c

/-- Model of Python `str.lower` (ASCII range; identity elsewhere). -/
def lowerStr (s : String) : String := String.mk (s.toList.map lowerChar)

/-- Contiguous-subsequence test on character lists: model of Python's
`needle in haystack` substring operator. -/
def listContainsSeq (hay needle : List Char) : Bool :=
  if needle.isPrefixOf hay then true
  else
    match hay with
    | [] => false
    | _ :: t => listContainsSeq t needle

/-- Model of Python `needle in hay` for strings. -/
def strContainsSub (hay needle : String) : Bool :=
  listContainsSeq hay.toList needle.toList

/-- A regex word character (`\w`): model on the ASCII range. -/
def isWordChar (c : Char) : Bool := c.isAlphanum || c = '_'

/-- Maximal runs of characters satisfying `p`: `acc` holds the reversed
current run. -/
def runsAux (p : Char → Bool) : List Char → List Char → List (List Char)
  | acc, [] => if acc.isEmpty then [] else [acc.reverse]
  | acc, c :: cs =>
    if p c then runsAux p (c :: acc) cs
    else if acc.isEmpty then runsAux p [] cs
    else acc.reverse :: runsAux p [] cs

/-- Maximum of a list of integers (Python `max`, only ever applied to
non-empty lists in the source; `0` is an arbitrary value for `[]`). -/
def maxInt : List Int → Int
  | [] => 0
  | [x] => x
  | x :: y :: rest => max x (maxInt (y :: rest))

/-- Maximum of a list of rationals with Python-style `0` default used by
`top_similarity = max(...) if results else 0`. -/
def maxScoreQ : List ℚ → ℚ
  | [] => 0
  | [x] => x
  | x :: y :: rest => max x (maxScoreQ (y :: rest))

/-! ## Shared data shapes

`Doc` models the evidence dictionaries flowing between `HybridRetriever`
and `CrossExaminer` (`{"text", "source", "label", "score"}`; the `url` /
`namespace` keys are carried along by the code but never read by the logic
verified here). `Decomposed` models the output dictionary of
`ClaimDecomposer.decompose`. -/

structure Doc where
  text : String
  source : String
  label : String
  score : ℚ
deriving Repr, DecidableEq

structure Decomposed where
  original_claim : String
  translated_claim : String
  keywords : List String
  english_keywords : List String
  years : List Int
  temporal_type : String
  vector_query : String
  web_query : String
  english_web_query : String
  needs_web_search : Bool
deriving Repr, DecidableEq

/-- The evidence dictionary produced by `HybridRetriever.retrieve` as read
by `CrossExaminer.examine` (`labeled_history`, `unlabeled_context`,
`similarity_level`, `top_similarity`, `labeled_count`; `web_results` is
passed to `_determine_consensus` but never read there). -/
structure Evidence where
  labeled_history : List Doc
  unlabeled_context : List Doc
  web_count : Nat
  similarity_level : String
  top_similarity : ℚ
  labeled_count : Nat
deriving Repr, DecidableEq

namespace CrossExaminer

/-- `LABEL_SCORES` dictionary: `some` exactly on the dictionary's keys
(used both for `in self.LABEL_SCORES` membership tests and for `.get`). -/
def LABEL_SCORES (label : String) : Option ℚ :=
  if label = "true" ∨ label = "real" ∨ label = "verified" then some 1
  else if label = "false" ∨ label = "fake" then some (-1)
  else if label = "misleading" then some (-(1/2))
  else if label = "unknown" then some 0
  else none

/-- `self.LABEL_SCORES.get(label, 0)`. -/
def labelScoreGet (label : String) : ℚ := (LABEL_SCORES label).getD 0

/-- `SOURCE_WEIGHTS` dictionary with the `.get(source, 0.3)` default. -/
def SOURCE_WEIGHTS (source : String) : ℚ :=
  if source = "BBC Sinhala" then 1
  else if source = "Hiru News" ∨ source = "Ada Derana" ∨ source = "Lankadeepa" then 9/10
  else if source = "ITN News" ∨ source = "Web Source" then 8/10
  else if source = "Twitter" then 1/2
  else if source = "Facebook" then 4/10
  else 3/10

/-- Result of `_analyze_labels` (the `dominant_label` / `label_counts`
entries are never read by the downstream logic and are omitted). -/
structure LabelAnalysis where
  has_labels : Bool
  support_score : ℚ
  true_count : Nat
  false_count : Nat
deriving Repr, DecidableEq, Inhabited

/-- `_analyze_labels`: mean of `LABEL_SCORES[label] * similarity * weight`
over the docs whose lowered label is a `LABEL_SCORES` key. -/
def analyze_labels (labeled : List Doc) : LabelAnalysis :=
  if labeled.isEmpty then
    { has_labels := false, support_score := 0, true_count := 0, false_count := 0 }
  else
    let scores := labeled.filterMap fun d =>
      (LABEL_SCORES (lowerStr d.label)).map fun ls => ls * d.score * SOURCE_WEIGHTS d.source
    { has_labels := true
      support_score := if scores.isEmpty then 0 else scores.sum / scores.length
      true_count := labeled.countP fun d =>
        lowerStr d.label = "true" ∨ lowerStr d.label = "real"
      false_count := labeled.countP fun d =>
        lowerStr d.label = "false" ∨ lowerStr d.label = "fake" }

/-- Result of `_check_zombie_rumors` (`matched_claim` / `message` strings are
omitted; `has_zombie_risk` models the key read — but never written — by
`_generate_recommendation`, hence always `false`). -/
structure Zombie where
  is_zombie : Bool
  kind : String
  has_zombie_risk : Bool := false
deriving Repr, DecidableEq, Inhabited

/-- `_check_zombie_rumors`. The module imports `typing`, `datetime` and
`collections` only; `re` is imported locally inside `_check_topic_relevance`,
so the `re.findall` call on the recycled-news branch raises
`NameError: name 're' is not defined`, modelled as `Except.error`. -/
def check_zombie_rumors (dec : Decomposed) : List Doc → Except String Zombie
  | [] => .ok { is_zombie := false, kind := "" }
  | d :: ds =>
    let label := lowerStr d.label
    if (label = "false" ∨ label = "fake") ∧ d.score ≥ 9/10 then
      .ok { is_zombie := true, kind := "known_false" }
    else if dec.temporal_type = "recent" ∧ (label = "true" ∨ label = "real")
        ∧ d.score ≥ 85/100 then
      .error "NameError: name 're' is not defined"
    else
      check_zombie_rumors dec ds

/-- `_determine_consensus` (only the `type` string is read downstream;
`web_results` is a parameter of the Python method but is never used). -/
def determine_consensus (la : LabelAnalysis) : String :=
  if la.true_count > 0 ∧ la.false_count > 0 then "conflict"
  else if la.true_count > 0 then "agree_true"
  else if la.false_count > 0 then "agree_false"
  else "no_labels"

/-- Numerator of `_calculate_weighted_score` (sum over labeled docs of
`label_score * (similarity * source_weight)`). -/
def labeled_score_sum (labeled : List Doc) : ℚ :=
  (labeled.map fun d =>
    labelScoreGet (lowerStr d.label) * (d.score * SOURCE_WEIGHTS d.source)).sum

/-- Labeled part of the denominator of `_calculate_weighted_score`. -/
def labeled_weight_sum (labeled : List Doc) : ℚ :=
  (labeled.map fun d => d.score * SOURCE_WEIGHTS d.source).sum

/-- Unlabeled part of the denominator (`weight = similarity * 0.2`): the
second, effective definition of `_calculate_weighted_score` in the file
(the first definition of the same name is shadowed by it). -/
def unlabeled_weight_sum (unlabeled : List Doc) : ℚ :=
  (unlabeled.map fun d => d.score * (2/10)).sum

/-- `_calculate_weighted_score` (effective, later definition). -/
def calculate_weighted_score (labeled unlabeled : List Doc) : ℚ :=
  let total_weight := labeled_weight_sum labeled + unlabeled_weight_sum unlabeled
  if total_weight = 0 then 0 else labeled_score_sum labeled / total_weight

/-- The stop-word set used for key-entity extraction from the translated
claim inside `_check_topic_relevance`. -/
def relevanceCommonWords : List String :=
  ["the", "is", "are", "was", "of", "in", "and", "that", "this", "has",
   "have", "been"]

/-- Maximal runs of `\w` characters in a character list: model of
`re.findall(r'\b\w\x7b3,\x7d\b', text)` before the length filter. -/
def wordRuns (l : List Char) : List (List Char) := runsAux isWordChar [] l

/-- Key entities of the translated claim: words of length ≥ 3, lowered,
minus the common-word set. -/
def keyEntities (translated_claim : String) : List String :=
  ((wordRuns translated_claim.toList).filter (fun r => r.length ≥ 3)).filterMap
    fun r =>
      let w := lowerStr (String.mk r)
      if w ∈ relevanceCommonWords then none else some w

/-- Result of `_check_topic_relevance` (the `method`, `keyword_count` and
`matched_count` entries are never read downstream and are omitted). -/
structure TopicRelevance where
  is_relevant : Bool
  overlap_ratio : ℚ
deriving Repr, DecidableEq

/-- The union set `sinhala_keywords | english_keywords | key_entities`,
modelled as a duplicate-free list (Python set). -/
def allKeywords (dec : Decomposed) : List String :=
  ((dec.keywords.map lowerStr) ++ (dec.english_keywords.map lowerStr)
    ++ keyEntities (lowerStr dec.translated_claim)).dedup

/-- `_check_topic_relevance`. -/
def check_topic_relevance (dec : Decomposed) (labeled : List Doc) : TopicRelevance :=
  let kws := allKeywords dec
  if kws.isEmpty ∨ labeled.isEmpty then
    { is_relevant := true, overlap_ratio := 1 }
  else
    let n : ℚ := kws.length
    let max_overlap := labeled.foldl
      (fun acc d =>
        let found : ℚ := kws.countP fun k => strContainsSub (lowerStr d.text) k
        max acc (found / n))
      0
    let min_matches : ℤ := min 2 kws.length
    let found_count : ℤ := ⌊max_overlap * n⌋
    { is_relevant := max_overlap ≥ 1/4 ∨ found_count ≥ min_matches
      overlap_ratio := max_overlap }

/-- `_check_date_consistency`, reduced to its `(type, trust_db)` pair (the
message strings are omitted). -/
def check_date_consistency (dec : Decomposed) : String × Bool :=
  if dec.temporal_type = "historical" ∧ dec.years ≠ [] then ("historical", true)
  else if dec.temporal_type = "recent" then ("recent", false)
  else ("general", true)

/-- `_get_source_priority`. -/
def get_source_priority (dec : Decomposed) (ev : Evidence) : String :=
  if dec.temporal_type = "historical" ∧ ev.labeled_count > 0 then "labeled_db"
  else if dec.temporal_type = "recent" then "web"
  else if ev.labeled_count > 0 then "labeled_db"
  else "unlabeled_db"

/-- `_generate_recommendation`, translated branch for branch (including the
two `check_web` branches, which are unreachable because the
`not has_labels` test above them returns first). -/
def generate_recommendation (la : LabelAnalysis) (consensus : String)
    (z : Zombie) (similarity_level : String) : String :=
  if z.is_zombie then "false"
  else if ¬ la.has_labels then
    if similarity_level = "high" ∨ similarity_level = "medium" then
      "needs_verification"
    else "unverified"
  else if consensus = "conflict" then "needs_verification"
  else if similarity_level = "high" then
    if la.support_score ≥ 7/10 ∧ la.true_count ≥ 2 then "true"
    else if la.support_score ≤ -(7/10) ∧ la.false_count ≥ 2 then "false"
    else if la.support_score ≥ 4/10 then "likely_true"
    else if la.support_score ≤ -(4/10) then "likely_false"
    else "needs_verification"
  else if similarity_level = "medium" then
    if la.support_score ≥ 6/10 then "likely_true"
    else if la.support_score ≤ -(6/10) then "likely_false"
    else if z.has_zombie_risk then "misleading"
    else if ¬ la.has_labels then "check_web"
    else "needs_verification"
  else
    if ¬ la.has_labels then "check_web"
    else "unverified"

/-- `_calculate_confidence`. -/
def calculate_confidence (la : LabelAnalysis) (ev : Evidence) : ℚ :=
  min (1/2 + (if la.has_labels then 2/10 else 0) + ev.top_similarity * (2/10)
    + (if ev.labeled_count ≥ 3 then 1/10 else 0)) 1

/-- The result dictionary of `examine`. -/
structure ExamResult where
  date_type : String
  trust_db : Bool
  label_analysis : LabelAnalysis
  zombie : Zombie
  consensus : String
  weighted_score : ℚ
  source_priority : String
  topic_relevant : Bool
  overlap_ratio : ℚ
  recommendation : String
  confidence : ℚ
deriving Repr, DecidableEq, Inhabited

/-- The result dictionary built by `examine` once the zombie check has
returned `z` (steps 1–9 of the source; all remaining steps are pure). The
topic-mismatch branch zeroes `weighted_score` and mutates `label_analysis`
in place (`support_score = 0`, `has_labels = False`) before the
recommendation is generated; the zombie flag and the consensus are left
untouched. -/
def examine_result (ev : Evidence) (dec : Decomposed) (z : Zombie) : ExamResult :=
  let dc := check_date_consistency dec
  let la0 := analyze_labels ev.labeled_history
  let consensus := determine_consensus la0
  let ws0 := calculate_weighted_score ev.labeled_history ev.unlabeled_context
  let sp := get_source_priority dec ev
  let rel := check_topic_relevance dec ev.labeled_history
  let ws := if rel.is_relevant then ws0 else 0
  let la := if rel.is_relevant then la0
            else { la0 with support_score := 0, has_labels := false }
  { date_type := dc.1
    trust_db := dc.2
    label_analysis := la
    zombie := z
    consensus := consensus
    weighted_score := ws
    source_priority := sp
    topic_relevant := rel.is_relevant
    overlap_ratio := rel.overlap_ratio
    recommendation := generate_recommendation la consensus z ev.similarity_level
    confidence := calculate_confidence la ev }

/-- `examine`. Only step 3 (the zombie check) can raise, so the whole call
is `Except`-valued. -/
def examine (ev : Evidence) (dec : Decomposed) : Except String ExamResult :=
  match check_zombie_rumors dec ev.labeled_history with
  | .error e => .error e
  | .ok z => .ok (examine_result ev dec z)

end CrossExaminer

namespace ClaimDecomposer

/-- `RECENT_KEYWORDS` (immediacy keywords, English and Sinhala). -/
def RECENT_KEYWORDS : List String :=
  ["today", "yesterday", "breaking", "just now", "now",
   "අද", "ඊයේ", "දැන්", "මේ මොහොතේ", "නවතම"]

/-- Is `rest` an admissible continuation after the four digits of a year
match: the `\b` at the end of `re.findall(r'\b(20[1-2][0-9])\b', text)`. -/
def yearBoundaryOk : List Char → Bool
  | [] => true
  | c :: _ => ¬ isWordChar c

/-- Character-level model of `re.findall(r'\b(20[1-2][0-9])\b', text)`:
scan left to right, `prev` records whether the previous character was a word
character (for the leading `\b`); a match consumes its four digits
(`findall` returns non-overlapping matches). -/
def scanYears : Bool → List Char → List Int
  | _, [] => []
  | prev, '2' :: '0' :: x :: y :: rest =>
    if ¬ prev ∧ (x = '1' ∨ x = '2') ∧ y.isDigit ∧ yearBoundaryOk rest then
      (2000 + (x.toNat - 48) * 10 + (y.toNat - 48) : Int) :: scanYears true rest
    else
      scanYears (isWordChar '2') ('0' :: x :: y :: rest)
  | _, c :: cs => scanYears (isWordChar c) cs

/-- `_extract_years`. -/
def extract_years (text : String) : List Int := scanYears false text.toList

/-- `_get_temporal_type` (current calendar year is an explicit parameter in
place of `datetime.now().year`). -/
def get_temporal_type (claim : String) (years : List Int) (current_year : Int) :
    String :=
  if RECENT_KEYWORDS.any fun kw => strContainsSub (lowerStr claim) (lowerStr kw) then
    "recent"
  else if ¬ years.isEmpty ∧ maxInt years ≥ current_year then "recent"
  else if ¬ years.isEmpty ∧ maxInt years ≤ 2023 then "historical"
  else "general"

/-- The temporal-classification rule as worded by the spec, for the
refinement comparison with `get_temporal_type`: (a) immediacy keyword
present case-insensitively ⇒ recent; (b) else any extracted year ≥ the
current calendar year ⇒ recent; (c) else maximum extracted year ≤ 2023 ⇒
historical; (d) otherwise general. -/
def temporalSpec (claim : String) (years : List Int) (current_year : Int) :
    String :=
  if RECENT_KEYWORDS.any fun kw => strContainsSub (lowerStr claim) (lowerStr kw) then
    "recent"
  else if years.any fun y => y ≥ current_year then "recent"
  else if ¬ years.isEmpty ∧ maxInt years ≤ 2023 then "historical"
  else "general"

/-- The stop-word set of `_extract_keywords` (English and Sinhala). -/
def stop_words : List String :=
  ["the", "a", "an", "is", "are", "was", "were", "has", "have",
   "will", "be", "been", "being", "that", "this", "it", "and",
   "or", "but", "if", "then", "so", "because", "as", "of", "in",
   "on", "at", "to", "for", "with", "by", "from", "about",
   "සහ", "හා", "හෝ", "නිසා", "බැවින්", "විට", "වඩා", "ගැන",
   "තවත්", "මෙම", "ඔබ", "මම", "අපි", "ඔව්", "නැත", "ඇත", "nati",
   "වෙත", "සඳහා", "මගින්", "විසින්", "ලෙස", "පිළිබඳ", "පිළිබඳව",
   "තුළ", "මත", "සිට", "දක්වා", "හේතුවෙන්", "කර", "කරන", "කරයි"]

/-- The punctuation characters of `w.strip(".,!?\"':;()[]\x7b\x7d")`
(apostrophe and braces written by code point). -/
def stripPunctChars : List Char :=
  ['.', ',', '!', '?', '"', Char.ofNat 39, ':', ';', '(', ')', '[', ']',
   Char.ofNat 123, Char.ofNat 125]

/-- Model of Python `w.strip(chars)`: drop the characters of the set from
both ends. -/
def stripEnds (w : String) : String :=
  String.mk ((((w.toList.dropWhile (· ∈ stripPunctChars)).reverse.dropWhile
    (· ∈ stripPunctChars)).reverse))

/-- Python `claim.split()`: the maximal runs of non-whitespace
characters. -/
def pySplit (claim : String) : List String :=
  (runsAux (fun c => ¬ c.isWhitespace) [] claim.toList).map String.mk

/-- `_extract_keywords`: whitespace split, strip leading/trailing
punctuation, keep non-empty tokens whose lowercase is not a stop word and
whose length exceeds 2. -/
def extract_keywords (claim : String) : List String :=
  (pySplit claim).filterMap fun w =>
    let clean_w := stripEnds w
    if clean_w ≠ "" ∧ lowerStr clean_w ∉ stop_words ∧ clean_w.length > 2 then
      some clean_w
    else none

/-- Does the claim contain a Sinhala Unicode character
(`re.search(r'[඀-෿]', claim)`). -/
def containsSinhala (claim : String) : Bool :=
  claim.toList.any fun c => 0xD80 ≤ c.toNat ∧ c.toNat ≤ 0xDFF

/-- `decompose`. The Google translation collaborator is an explicit
parameter: `translate claim = none` models a raised/failed translation
(the `except` branch), `some t` a successful one. `current_year` replaces
`datetime.now().year`. -/
def decompose (claim : String) (current_year : Int)
    (translate : String → Option String) : Decomposed :=
  let years := extract_years claim
  let temporal_type := get_temporal_type claim years current_year
  let keywords := extract_keywords claim
  let translated :=
    if containsSinhala claim then
      match translate claim with
      | some english_claim =>
        let english_keywords := extract_keywords english_claim
        (english_claim, english_keywords, " ".intercalate (english_keywords.take 7))
      | none => (claim, keywords, "")
    else (claim, keywords, "")
  { original_claim := claim
    translated_claim := translated.1
    keywords := keywords
    english_keywords := translated.2.1
    years := years
    temporal_type := temporal_type
    vector_query := claim
    web_query := String.mk (((claim.toList.take 150).dropWhile
      Char.isWhitespace).reverse.dropWhile Char.isWhitespace).reverse
    english_web_query := translated.2.2
    needs_web_search := temporal_type = "recent" }

end ClaimDecomposer

namespace HybridRetriever

def HIGH_SIMILARITY : ℚ := 92/100

/-- Declared in the source but never used by `_get_similarity_level`. -/
def MEDIUM_SIMILARITY : ℚ := 80/100

def LOW_SIMILARITY : ℚ := 75/100

/-- The social-media source substrings of the quality filter. -/
def socialSubstrings : List String := ["twitter", "facebook", "whatsapp", "social"]

/-- A document is dropped by the quality filter when its lowered source
name contains a social-media substring and its score is below `0.88`. -/
def droppedBySocialFilter (d : Doc) : Bool :=
  (socialSubstrings.any fun s => strContainsSub (lowerStr d.source) s)
    ∧ d.score < 88/100

/-- The `filtered_db_results` loop of `retrieve`. -/
def filterDbResults (docs : List Doc) : List Doc :=
  docs.filter fun d => ¬ droppedBySocialFilter d

/-- A raw DuckDuckGo result (`{"title", "body", "href"}`) plus the
`is_translated` flag the code attaches to global-search results. -/
structure WebResult where
  title : String
  body : String
  href : String
  is_translated : Bool := false
deriving Repr, DecidableEq

/-- The `formatted_web` entry built for each raw web result: the `url` key
is dropped from `Doc` (never read downstream), `res.get("title", "Web
Source")` is the title (the key is always present on DDGS results). -/
def formatWebResult (r : WebResult) : Doc :=
  { text := if r.body ≠ "" then r.body else r.title
    source := r.title
    label := "unverified"
    score := if r.is_translated then 82/100 else 80/100 }

/-- `_get_similarity_level`. -/
def get_similarity_level (score : ℚ) : String :=
  if score ≥ HIGH_SIMILARITY then "high"
  else if score ≥ LOW_SIMILARITY then "medium"
  else "low"

/-- `_should_search_web`. -/
def should_search_web (dec : Decomposed) (top_similarity : ℚ) : Bool :=
  if dec.temporal_type = "recent" then true
  else if top_similarity < LOW_SIMILARITY then true
  else if dec.temporal_type = "general" then true
  else false

/-- `retrieve`, with the external searches as explicit inputs:
`labeled_results` is the vector-store answer for the `"dataset"` namespace
(`unlabeled_results` is the empty list in the source), and
`web_search query region` the DuckDuckGo answer (`[]` models both "no
results" and a caught search exception, which the code treats alike). -/
def retrieve (dec : Decomposed) (labeled_results : List Doc)
    (web_search : String → String → List WebResult) : Evidence :=
  let filtered := filterDbResults (labeled_results ++ [])
  let labeled_history := filtered
  let top_similarity := maxScoreQ (filtered.map (·.score))
  let needs_web := should_search_web dec top_similarity
    ∨ dec.english_web_query ≠ ""
  let web_results :=
    if needs_web then
      web_search dec.web_query "lk-en" ++
        (if dec.english_web_query ≠ "" then
          (web_search dec.english_web_query "wt-wt").map
            fun r => { r with is_translated := true }
         else [])
    else []
  { labeled_history := labeled_history
    unlabeled_context := web_results.map formatWebResult
    web_count := web_results.length
    similarity_level := get_similarity_level top_similarity
    top_similarity := top_similarity
    labeled_count := labeled_history.length }

end HybridRetriever

namespace MemoryStore

/-- JSON-like values: the verification-result dictionaries that the cache
stores. `json.loads ∘ json.dumps` is the identity on such values, so the
Redis tier (which stores the serialized string) is modelled as a map to
`JValue` directly. -/
inductive JValue where
  | str (s : String)
  | num (q : ℚ)
  | jbool (b : Bool)
  | null
  | obj (fields : List (String × JValue))

/-- Python truthiness of a JSON value (`if result:`). -/
def truthy : JValue → Bool
  | .str s => s ≠ ""
  | .num q => q ≠ 0
  | .jbool b => b
  | .null => false
  | .obj fs => ¬ fs.isEmpty

/-- First-match lookup in an association list (dictionary read). -/
def alGet {α : Type} (k : String) : List (String × α) → Option α
  | [] => none
  | (k', v) :: rest => if k' = k then some v else alGet k rest

/-- Dictionary write (`d[k] = v`): the new binding shadows older ones. -/
def alSet {α : Type} (k : String) (v : α) (al : List (String × α)) :
    List (String × α) := (k, v) :: al

/-- Dictionary delete (`del d[k]` / Redis `delete`). -/
def alDel {α : Type} (k : String) (al : List (String × α)) :
    List (String × α) := al.filter fun p => p.1 ≠ k

/-- `result.get(k)` on a dictionary value (`none` on non-dictionaries). -/
def jget (v : JValue) (k : String) : Option JValue :=
  match v with
  | .obj fs => alGet k fs
  | _ => none

/-- `result.get(k, default)`. -/
def jgetD (v : JValue) (k : String) (d : JValue) : JValue := (jget v k).getD d

/-- `k in result` for a dictionary value. -/
def hasKey (v : JValue) (k : String) : Bool := (jget v k).isSome

/-- `result.get("verdict", \x7b\x7d).get("label", "unknown")`. -/
def verdictLabel (r : JValue) : JValue :=
  jgetD (jgetD r "verdict" (.obj [])) "label" (.str "unknown")

/-- `result.get("verdict", \x7b\x7d).get("confidence", 0)`. -/
def verdictConfidence (r : JValue) : JValue :=
  jgetD (jgetD r "verdict" (.obj [])) "confidence" (.num 0)

/-- `result.get("reasoning", \x7b\x7d).get("cot_reasoning", "")`. -/
def cotReasoning (r : JValue) : JValue :=
  jgetD (jgetD r "reasoning" (.obj [])) "cot_reasoning" (.str "")

/-- `ShortTermMemory`: `client = some kv` models a connected Redis with
contents `kv`; `client = none` the degraded tier using `fallback_cache`.
TTLs are not modelled (no clock): the properties verified here read the
entry back before any expiry. -/
structure ShortTermMemory where
  client : Option (List (String × JValue))
  fallback_cache : List (String × JValue)

/-- `_get_key`: `"claim:" + md5(claim).hexdigest()`; the digest is
abstracted away (only its determinism matters to the verified
properties). -/
def get_key (claim : String) : String := "claim:" ++ claim

/-- `ShortTermMemory.get`: the Redis branch returns `None` on a miss
without consulting the fallback map. -/
def ShortTermMemory.get (m : ShortTermMemory) (claim : String) : Option JValue :=
  match m.client with
  | some kv => alGet (get_key claim) kv
  | none => alGet (get_key claim) m.fallback_cache

/-- `ShortTermMemory.set` (`setex` on Redis, plain write on the fallback
map; the returned boolean is dropped). -/
def ShortTermMemory.set (m : ShortTermMemory) (claim : String)
    (result : JValue) : ShortTermMemory :=
  match m.client with
  | some kv => { m with client := some (alSet (get_key claim) result kv) }
  | none => { m with fallback_cache := alSet (get_key claim) result m.fallback_cache }

/-- `ShortTermMemory.delete`. -/
def ShortTermMemory.delete (m : ShortTermMemory) (claim : String) :
    ShortTermMemory :=
  match m.client with
  | some kv => { m with client := some (alDel (get_key claim) kv) }
  | none => { m with fallback_cache := alDel (get_key claim) m.fallback_cache }

/-- A row of the `verified_claims` table (the `id` serial and the two
timestamp columns are omitted: never read by the verified properties). -/
structure DbRow where
  claim_text : String
  verdict : JValue
  confidence : JValue
  reasoning : JValue
  evidence : JValue
  source : String
  access_count : Nat

/-- `dict(row)` as returned by the PostgreSQL branch of
`LongTermMemory.get`. -/
def rowToJson (hash : String) (r : DbRow) : JValue :=
  .obj [("claim_hash", .str hash), ("claim_text", .str r.claim_text),
        ("verdict", r.verdict), ("confidence", r.confidence),
        ("reasoning", r.reasoning), ("evidence", r.evidence),
        ("source", .str r.source), ("access_count", .num r.access_count)]

/-- `LongTermMemory`: `conn = some table` models a connected PostgreSQL
(keyed by `claim_hash`), `conn = none` the degraded tier using
`fallback_storage`. -/
structure LongTermMemory where
  conn : Option (List (String × DbRow))
  fallback_storage : List (String × JValue)

/-- `_get_hash`: `sha256(claim).hexdigest()`, abstracted like `_get_key`. -/
def get_hash (claim : String) : String := claim

/-- The four-field summary written to `fallback_storage` by the degraded
branch of `LongTermMemory.store` (`now` stands for
`datetime.now().isoformat()`). -/
def fallbackSummary (claim : String) (result : JValue) (now : String) : JValue :=
  .obj [("claim_text", .str claim), ("verdict", verdictLabel result),
        ("confidence", verdictConfidence result), ("verified_at", .str now)]

/-- `LongTermMemory.get`: the healthy branch increments `access_count` and
returns the full row; the degraded branch reads `fallback_storage`. -/
def LongTermMemory.get (m : LongTermMemory) (claim : String) :
    Option JValue × LongTermMemory :=
  let h := get_hash claim
  match m.conn with
  | some table =>
    match alGet h table with
    | some row =>
      let row' := { row with access_count := row.access_count + 1 }
      (some (rowToJson h row'), { m with conn := some (alSet h row' table) })
    | none => (none, m)
  | none => (alGet h m.fallback_storage, m)

/-- `LongTermMemory.store`: the healthy branch upserts the full row; the
degraded branch stores only the four-field summary. -/
def LongTermMemory.store (m : LongTermMemory) (claim : String)
    (result : JValue) (now : String) : LongTermMemory :=
  let h := get_hash claim
  match m.conn with
  | some table =>
    let newRow : DbRow :=
      { claim_text := claim
        verdict := verdictLabel result
        confidence := verdictConfidence result
        reasoning := cotReasoning result
        evidence := jgetD result "evidence" (.obj [])
        source := "hybrid_verifier"
        access_count := match alGet h table with
          | some row => row.access_count + 1
          | none => 1 }
    { m with conn := some (alSet h newRow table) }
  | none =>
    { m with fallback_storage :=
        alSet h (fallbackSummary claim result now) m.fallback_storage }

/-- `MemoryManager`. -/
structure MemoryManager where
  short_term : ShortTermMemory
  long_term : LongTermMemory

/-- `MemoryManager.get_cached_result`: short-term tier first (with Python
truthiness on the hit), then the long-term tier with a short-term backfill
on a truthy hit. -/
def get_cached_result (m : MemoryManager) (claim : String) :
    Option JValue × MemoryManager :=
  let shortHit :=
    match m.short_term.get claim with
    | some r => if truthy r then some r else none
    | none => none
  match shortHit with
  | some r => (some r, m)
  | none =>
    let lr := m.long_term.get claim
    match lr.1 with
    | some r =>
      if truthy r then
        (some r, { short_term := m.short_term.set claim r, long_term := lr.2 })
      else (none, { m with long_term := lr.2 })
    | none => (none, { m with long_term := lr.2 })

/-- `MemoryManager.store_result`: write-through to both tiers. -/
def store_result (m : MemoryManager) (claim : String) (result : JValue)
    (now : String) : MemoryManager :=
  { short_term := m.short_term.set claim result
    long_term := m.long_term.store claim result now }

end MemoryStore

/-! ## Concrete instances used by counterexamples and witnesses -/

/-- A general-topic decomposed claim whose keywords match none of the
evidence texts below. -/
def dec1 : Decomposed :=
  { original_claim := "apple banana", translated_claim := ""
    keywords := ["apple", "banana"], english_keywords := [], years := []
    temporal_type := "general", vector_query := "", web_query := ""
    english_web_query := "", needs_web_search := false }

/-- One topic-irrelevant labeled item that is also a `known_false` zombie
match (`label = "false"`, similarity `0.95 ≥ 0.90`). -/
def ev1 : Evidence :=
  { labeled_history := [⟨"xyz", "unknown", "false", 95/100⟩]
    unlabeled_context := [], web_count := 0, similarity_level := "high"
    top_similarity := 95/100, labeled_count := 1 }

/-- One topic-irrelevant labeled item that is not a zombie match. -/
def ev1b : Evidence :=
  { ev1 with labeled_history := [⟨"zzz", "unknown", "misleading", 1/2⟩] }

/-- The claim of the spec's recycled-news example scenario, decomposed
with the current year 2026 (the translation collaborator is never invoked
on this ASCII claim). -/
def dec2 : Decomposed :=
  ClaimDecomposer.decompose "The president resigned today" 2026 fun _ => none

/-- The labeled evidence of the recycled-news scenario: an old `true` item
from 2019 with similarity `0.9`. -/
def ev2 : Evidence :=
  { labeled_history :=
      [⟨"The president resigned in 2019", "BBC Sinhala", "true", 9/10⟩]
    unlabeled_context := [], web_count := 0, similarity_level := "high"
    top_similarity := 9/10, labeled_count := 1 }

/-- No labeled evidence, one unlabeled web snippet, low similarity. -/
def ev3 : Evidence :=
  { labeled_history := []
    unlabeled_context := [⟨"web snippet", "Web Source", "unverified", 8/10⟩]
    web_count := 1, similarity_level := "low", top_similarity := 0
    labeled_count := 0 }

/-- The cross-examination result of the `ev1b`/`dec1` scenario. -/
def c1r : CrossExaminer.ExamResult :=
  (CrossExaminer.examine ev1b dec1).toOption.getD default

/-- The cross-examination result of the `ev3`/`dec1` scenario. -/
def c3r : CrossExaminer.ExamResult :=
  (CrossExaminer.examine ev3 dec1).toOption.getD default

/-- A social-media item below the `0.88` filter threshold. -/
def twitterDoc : Doc := ⟨"t", "Twitter", "false", 1/2⟩

/-- A vector-store item carrying no recognized truth label. -/
def unvDoc : Doc := ⟨"u", "BBC Sinhala", "unverified", 6/10⟩

/-- A web-search collaborator that returns no results. -/
def noWeb : String → String → List HybridRetriever.WebResult := fun _ _ => []

/-- Labeled evidence for the weighted-score witness. -/
def labC8 : List Doc := [⟨"t", "BBC Sinhala", "true", 9/10⟩]

/-- Unlabeled evidence for the weighted-score witness. -/
def unlC8 : List Doc := [⟨"w", "Web Source", "unverified", 8/10⟩]

/-- A well-formed verification result containing verdict, evidence and
reasoning fields. -/
def exResult : MemoryStore.JValue :=
  .obj [("verdict", .obj [("label", .str "true"), ("confidence", .num (9/10))]),
        ("evidence", .obj [("labeled_count", .num 2)]),
        ("reasoning", .obj [("cot_reasoning", .str "matches labeled history")])]

/-- A memory manager with both backing stores degraded to their
in-process fallback maps. -/
def exManagerDegraded : MemoryStore.MemoryManager :=
  { short_term := { client := none, fallback_cache := [] }
    long_term := { conn := none, fallback_storage := [] } }

/-- A memory manager with both backing stores healthy and empty. -/
def exManagerHealthy : MemoryStore.MemoryManager :=
  { short_term := { client := some [], fallback_cache := [] }
    long_term := { conn := some [], fallback_storage := [] } }

/-! ## Theorems -/

open CrossExaminer ClaimDecomposer HybridRetriever MemoryStore

/-! ### Claim C2 — recycled-news detection -/

unseal Rat.mul Rat.inv in
/-- Claim C2: on the spec's recycled-news scenario (claim containing
"today", hence `temporal_class = recent`; one labeled item with
`truth_label = true`, similarity `0.9 ≥ 0.85`, text dated 2019), the claim
asserts `examine` returns a `recycled_news` zombie and recommendation
`false` without raising. The code instead raises
`NameError: name 're' is not defined` on that branch, because `re` is
imported only inside `_check_topic_relevance` and not at module level. -/
theorem c2_theorem :
    dec2.temporal_type = "recent"
      ∧ ClaimDecomposer.extract_years "The president resigned in 2019" = [2019]
      ∧ CrossExaminer.examine ev2 dec2
          = .error "NameError: name 're' is not defined" :=
  ⟨by decide, by decide, rfl⟩

/-! ### Claim C5 — similarity tiers -/

unseal Rat.mul Rat.inv in
/-- Claim C5 counterexample: the claim's cut points (high ≥ 0.90,
medium ≥ 0.70, low ≥ 0.50, else none; empty retrieval ⇒ none) fail on the
code: a `0.90` top similarity is classified `medium` (the high cut is
`0.92`) and the empty retrieval (`top_similarity = 0`) is classified
`low`, not `none`. -/
theorem c5_counterexample :
    HybridRetriever.get_similarity_level (9/10) = "medium"
      ∧ HybridRetriever.get_similarity_level 0 = "low"
      ∧ (HybridRetriever.retrieve dec1 [] noWeb).similarity_level = "low" :=
  ⟨by decide, by decide, by decide⟩

/-- Claim C5 amended: `similarity_tier` is computed from `top_similarity`
with the cut points high ≥ 0.92 and medium ≥ 0.75, and is `low` otherwise;
the tier `none` is never produced, and a retrieval with no items
(`top_similarity = 0`) is tiered `low`. -/
theorem c5_theorem :
    (∀ s : ℚ,
      (HybridRetriever.get_similarity_level s = "high" ↔ 92/100 ≤ s)
        ∧ (HybridRetriever.get_similarity_level s = "medium"
            ↔ 75/100 ≤ s ∧ s < 92/100)
        ∧ (HybridRetriever.get_similarity_level s = "low" ↔ s < 75/100)
        ∧ HybridRetriever.get_similarity_level s ≠ "none")
      ∧ (∀ dec ws, (HybridRetriever.retrieve dec [] ws).similarity_level = "low") := by
  constructor
  · intro s
    unfold HybridRetriever.get_similarity_level HybridRetriever.HIGH_SIMILARITY
      HybridRetriever.LOW_SIMILARITY
    refine ⟨?_, ?_, ?_, ?_⟩ <;> split_ifs with h1 h2 <;> simp_all <;>
      try linarith
  · intro dec ws
    show HybridRetriever.get_similarity_level (maxScoreQ []) = "low"
    norm_num [HybridRetriever.get_similarity_level, HybridRetriever.HIGH_SIMILARITY,
      HybridRetriever.LOW_SIMILARITY, maxScoreQ]

/-! ### Claim C9 — keyword extraction -/

/-- Claim C9 counterexample: the keyword list is not deduplicated — the
claim text `"apple apple"` yields the keyword list
`["apple", "apple"]`. -/
theorem c9_counterexample :
    ClaimDecomposer.extract_keywords "apple apple" = ["apple", "apple"]
      ∧ ¬ (ClaimDecomposer.extract_keywords "apple apple").Nodup :=
  ⟨by decide, by decide⟩

/-- Claim C9 amended: every keyword produced by `_extract_keywords` is a
non-empty punctuation-stripped token whose lowercase form is not in the
stop-word set and whose length is at least 3; the list may, however,
contain duplicates. -/
theorem c9_theorem (claim : String) :
    ∀ w ∈ ClaimDecomposer.extract_keywords claim,
      w ≠ "" ∧ lowerStr w ∉ ClaimDecomposer.stop_words ∧ 2 < w.length := by
  intro w hw
  unfold ClaimDecomposer.extract_keywords at hw
  rw [List.mem_filterMap] at hw
  obtain ⟨a, -, ha⟩ := hw
  by_cases h : ClaimDecomposer.stripEnds a ≠ ""
      ∧ lowerStr (ClaimDecomposer.stripEnds a) ∉ ClaimDecomposer.stop_words
      ∧ (ClaimDecomposer.stripEnds a).length > 2
  · rw [if_pos h] at ha
    cases ha
    exact h
  · rw [if_neg h] at ha
    cases ha

/-- Claim C9 witness: the token `"cat"` of the claim
`"apple apple The cat!! ab"` satisfies the amended guarantees. -/
theorem c9_witness :
    "cat" ∈ ClaimDecomposer.extract_keywords "apple apple The cat!! ab"
      ∧ ("cat" ≠ "" ∧ lowerStr "cat" ∉ ClaimDecomposer.stop_words
          ∧ 2 < "cat".length) :=
  ⟨by decide, c9_theorem "apple apple The cat!! ab" "cat" (by decide)⟩

/-! ### Claim C4 — retrieval partition -/

unseal Rat.mul Rat.inv in
/-- Claim C4 counterexample: the claim's partition rule (labeled iff a
recognized truth label, all retrieved items in one of the two lists) fails:
the vector-store item `unvDoc` with the unrecognized label `"unverified"`
is placed in `labeled_history`, and the social-media item `twitterDoc`
(score `0.5 < 0.88`) is dropped from both lists entirely. -/
theorem c4_counterexample :
    (HybridRetriever.retrieve dec1 [twitterDoc, unvDoc] noWeb).labeled_history
        = [unvDoc]
      ∧ (HybridRetriever.retrieve dec1 [twitterDoc, unvDoc] noWeb).unlabeled_context
        = []
      ∧ unvDoc.label = "unverified"
      ∧ twitterDoc ∉
          (HybridRetriever.retrieve dec1 [twitterDoc, unvDoc] noWeb).labeled_history
            ++ (HybridRetriever.retrieve dec1 [twitterDoc, unvDoc] noWeb).unlabeled_context :=
  ⟨by decide, by decide, by decide, by decide⟩

/-- Claim C4 amended: the partition of a retrieval is by origin, not by
truth label — `labeled_history` consists of exactly the vector-store
results that survive the social-media quality filter, whatever their
`label` field holds, and `unlabeled_context` consists of exactly the
formatted web results, each of which carries the fixed label
`"unverified"`. Social-media items below the filter threshold appear in
neither list. -/
theorem c4_theorem (dec : Decomposed) (db : List Doc)
    (ws : String → String → List HybridRetriever.WebResult) :
    (∀ d, d ∈ (HybridRetriever.retrieve dec db ws).labeled_history
        ↔ d ∈ db ∧ HybridRetriever.droppedBySocialFilter d = false)
      ∧ (∀ d ∈ (HybridRetriever.retrieve dec db ws).unlabeled_context,
          d.label = "unverified") := by
  constructor
  · intro d
    show d ∈ HybridRetriever.filterDbResults (db ++ []) ↔ _
    simp [HybridRetriever.filterDbResults, List.mem_filter]
  · intro d hd
    obtain ⟨l, hl⟩ : ∃ l, (HybridRetriever.retrieve dec db ws).unlabeled_context
        = List.map HybridRetriever.formatWebResult l := ⟨_, rfl⟩
    rw [hl] at hd
    obtain ⟨r, -, rfl⟩ := List.mem_map.mp hd
    rfl

unseal Rat.mul Rat.inv in
/-- Claim C4 witness: the unrecognized-label item `unvDoc` is retained in
`labeled_history` by the amended rule. -/
theorem c4_witness :
    unvDoc ∈ (HybridRetriever.retrieve dec1 [unvDoc] noWeb).labeled_history :=
  ((c4_theorem dec1 [unvDoc] noWeb).1 unvDoc).mpr ⟨by decide, by decide⟩

/-! ### Claims C1 and C3 — recommendation policy -/

/-- Inversion of a successful `examine` call. -/
theorem examine_ok_inv {ev : Evidence} {dec : Decomposed}
    {r : CrossExaminer.ExamResult} (h : CrossExaminer.examine ev dec = .ok r) :
    ∃ z, CrossExaminer.check_zombie_rumors dec ev.labeled_history = .ok z
      ∧ r = CrossExaminer.examine_result ev dec z := by
  unfold CrossExaminer.examine at h
  cases hz : CrossExaminer.check_zombie_rumors dec ev.labeled_history with
  | error e => rw [hz] at h; cases h
  | ok z => rw [hz] at h; exact ⟨z, rfl, (Except.ok.inj h).symm⟩

/-- The `topic_relevant` entry of the examination result. -/
theorem examine_result_topic_relevant (ev : Evidence) (dec : Decomposed)
    (z : CrossExaminer.Zombie) :
    (CrossExaminer.examine_result ev dec z).topic_relevant
      = (CrossExaminer.check_topic_relevance dec ev.labeled_history).is_relevant := rfl

/-- The `weighted_score` entry, zeroed on topic mismatch. -/
theorem examine_result_weighted_score (ev : Evidence) (dec : Decomposed)
    (z : CrossExaminer.Zombie) :
    (CrossExaminer.examine_result ev dec z).weighted_score
      = if (CrossExaminer.check_topic_relevance dec ev.labeled_history).is_relevant
        then CrossExaminer.calculate_weighted_score ev.labeled_history
          ev.unlabeled_context
        else 0 := rfl

/-- The `zombie_check` entry is the zombie check's result unchanged. -/
theorem examine_result_zombie (ev : Evidence) (dec : Decomposed)
    (z : CrossExaminer.Zombie) :
    (CrossExaminer.examine_result ev dec z).zombie = z := rfl

/-- The `recommendation` entry: generated from the (possibly overridden)
label analysis, the original consensus, the zombie flag and the tier. -/
theorem examine_result_recommendation (ev : Evidence) (dec : Decomposed)
    (z : CrossExaminer.Zombie) :
    (CrossExaminer.examine_result ev dec z).recommendation
      = CrossExaminer.generate_recommendation
          (if (CrossExaminer.check_topic_relevance dec ev.labeled_history).is_relevant
           then CrossExaminer.analyze_labels ev.labeled_history
           else { CrossExaminer.analyze_labels ev.labeled_history with
                    support_score := 0, has_labels := false })
          (CrossExaminer.determine_consensus
            (CrossExaminer.analyze_labels ev.labeled_history))
          z ev.similarity_level := rfl

unseal Rat.mul Rat.inv in
/-- Claim C1 counterexample: on `ev1`/`dec1` (keywords `apple`, `banana`
matching nothing in the single labeled item, which is however a
`known_false` zombie match with similarity `0.95`), `examine` reports
`topic_relevant = false` and `weighted_score = 0` — yet the recommendation
is `"false"`, which the claim forbids. -/
theorem c1_counterexample :
    (CrossExaminer.examine ev1 dec1).toOption.map
        (fun r => (r.topic_relevant, r.weighted_score, r.recommendation))
      = some (false, 0, "false") := by decide

/-- Claim C1 amended: when `examine` succeeds with
`topic_relevant = false`, the returned `weighted_score` is exactly `0` and
the recommendation is never `"true"`; but the recommendation can still be
`"false"` — exactly when the zombie check (which the topic-mismatch
override does not reset) fired — and is otherwise `"needs_verification"`
or `"unverified"`. -/
theorem c1_theorem (ev : Evidence) (dec : Decomposed)
    (r : CrossExaminer.ExamResult) (h : CrossExaminer.examine ev dec = .ok r)
    (hrel : r.topic_relevant = false) :
    r.weighted_score = 0 ∧ r.recommendation ≠ "true"
      ∧ (r.recommendation = "false" → r.zombie.is_zombie = true)
      ∧ (r.recommendation = "false" ∨ r.recommendation = "needs_verification"
          ∨ r.recommendation = "unverified") := by
  obtain ⟨z, hz, rfl⟩ := examine_ok_inv h
  rw [examine_result_topic_relevant] at hrel
  refine ⟨?_, ?_⟩
  · rw [examine_result_weighted_score, hrel]
    simp
  · rw [examine_result_recommendation, examine_result_zombie, hrel]
    simp only [Bool.false_eq_true, if_false]
    unfold CrossExaminer.generate_recommendation
    by_cases hzz : z.is_zombie
    · simp [hzz]
    · by_cases hl : ev.similarity_level = "high" ∨ ev.similarity_level = "medium"
      · simp [hzz, hl]
      · simp [hzz, hl]

unseal Rat.mul Rat.inv in
/-- Claim C1 witness: the topic-irrelevant, non-zombie scenario
`ev1b`/`dec1` instantiates the amended claim. -/
theorem c1_witness :
    CrossExaminer.examine ev1b dec1 = .ok c1r
      ∧ c1r.topic_relevant = false
      ∧ (c1r.weighted_score = 0 ∧ c1r.recommendation ≠ "true"
          ∧ (c1r.recommendation = "false" → c1r.zombie.is_zombie = true)
          ∧ (c1r.recommendation = "false"
              ∨ c1r.recommendation = "needs_verification"
              ∨ c1r.recommendation = "unverified")) :=
  ⟨rfl, by decide, c1_theorem ev1b dec1 c1r rfl (by decide)⟩

unseal Rat.mul Rat.inv in
/-- Claim C3 counterexample: with no labeled evidence, an unlabeled web
snippet present and tier `low`, the claim requires recommendation
`"check_web"`, but `examine` returns `"unverified"` (the early
`not has_labels` return precedes the unreachable `check_web` branches). -/
theorem c3_counterexample :
    ev3.labeled_history = [] ∧ ev3.unlabeled_context ≠ []
      ∧ (CrossExaminer.examine ev3 dec1).toOption.map
          (fun r => (r.zombie.is_zombie, r.recommendation))
        = some (false, "unverified")
      ∧ ("unverified" : String) ≠ "check_web" :=
  ⟨rfl, by decide, by decide, by decide⟩

/-- Claim C3 amended: with no labeled evidence at all, the recommendation
is `"needs_verification"` when the similarity tier is `high` or `medium`
and `"unverified"` otherwise, regardless of whether unlabeled or web
evidence exists; it is never `"check_web"`. -/
theorem c3_theorem (ev : Evidence) (dec : Decomposed)
    (r : CrossExaminer.ExamResult) (h : CrossExaminer.examine ev dec = .ok r)
    (hlab : ev.labeled_history = []) :
    r.recommendation
      = if ev.similarity_level = "high" ∨ ev.similarity_level = "medium"
        then "needs_verification" else "unverified" := by
  obtain ⟨z, hz, rfl⟩ := examine_ok_inv h
  rw [hlab] at hz
  have hz' : z = { is_zombie := false, kind := "" } := (Except.ok.inj hz).symm
  subst hz'
  rw [examine_result_recommendation, hlab]
  simp [CrossExaminer.check_topic_relevance, CrossExaminer.analyze_labels,
    CrossExaminer.generate_recommendation]

unseal Rat.mul Rat.inv in
/-- Claim C3 witness: the `ev3`/`dec1` scenario instantiates the amended
claim (tier `low` ⇒ `"unverified"`). -/
theorem c3_witness :
    CrossExaminer.examine ev3 dec1 = .ok c3r
      ∧ ev3.labeled_history = []
      ∧ c3r.recommendation
        = (if ev3.similarity_level = "high" ∨ ev3.similarity_level = "medium"
           then "needs_verification" else "unverified") :=
  ⟨rfl, rfl, c3_theorem ev3 dec1 c3r rfl rfl⟩

/-! ### Claim C7 — year extraction and temporal classification -/

/-- Every year produced by the scanner lies in `[2010, 2029]`. -/
theorem scanYears_range : ∀ (b : Bool) (l : List Char) (y : Int),
    y ∈ ClaimDecomposer.scanYears b l → 2010 ≤ y ∧ y ≤ 2029 := by
  intro b l
  induction b, l using ClaimDecomposer.scanYears.induct with
  | case1 => simp [ClaimDecomposer.scanYears]
  | case2 prev x y' rest hcond ih =>
    intro y hy
    rw [ClaimDecomposer.scanYears, if_pos hcond] at hy
    rcases List.mem_cons.mp hy with rfl | hmem
    · obtain ⟨-, hx, hy', -⟩ := hcond
      simp only [Char.isDigit, Bool.and_eq_true, decide_eq_true_eq] at hy'
      obtain ⟨hd1, hd2⟩ := hy'
      have hd1' : (48 : ℕ) ≤ y'.toNat := hd1
      have hd2' : y'.toNat ≤ 57 := hd2
      rcases hx with rfl | rfl <;> constructor <;> simp <;> omega
    · exact ih y hmem
  | case3 prev x y' rest hcond ih =>
    intro y hy
    rw [ClaimDecomposer.scanYears, if_neg hcond] at hy
    exact ih y hy
  | case4 prev c cs h1 ih =>
    intro y hy
    rw [ClaimDecomposer.scanYears] at hy
    · exact ih y hy
    · exact h1

/-- For a non-empty list, `maxInt` is an element and an upper bound. -/
theorem maxInt_spec : ∀ (l : List Int), l ≠ [] →
    maxInt l ∈ l ∧ ∀ y ∈ l, y ≤ maxInt l := by
  intro l
  induction l using maxInt.induct with
  | case1 => intro h; exact absurd rfl h
  | case2 x => intro _; simp [maxInt]
  | case3 x y rest ih =>
    intro _
    obtain ⟨hmem, hub⟩ := ih (by simp)
    constructor
    · rw [maxInt]
      rcases max_cases x (maxInt (y :: rest)) with ⟨heq, -⟩ | ⟨heq, -⟩
      · rw [heq]; exact List.mem_cons_self x _
      · rw [heq]; exact List.mem_cons_of_mem x hmem
    · intro z hz
      rw [maxInt]
      rcases List.mem_cons.mp hz with rfl | hz2
      · exact le_max_left _ _
      · exact le_trans (hub z hz2) (le_max_right _ _)

/-- Python's `max(years) >= current_year` test coincides with the spec's
"any extracted year ≥ current year" on non-empty year lists. -/
theorem any_ge_iff_maxInt (l : List Int) (c : Int) (h : l ≠ []) :
    (l.any fun y => y ≥ c) = true ↔ c ≤ maxInt l := by
  obtain ⟨hmem, hub⟩ := maxInt_spec l h
  rw [List.any_eq_true]
  constructor
  · rintro ⟨y, hy, hyc⟩
    exact le_trans (of_decide_eq_true hyc) (hub y hy)
  · intro hc
    exact ⟨maxInt l, hmem, decide_eq_true hc⟩

/-- `_get_temporal_type` implements exactly the spec's priority order. -/
theorem get_temporal_type_eq_spec (claim : String) (years : List Int)
    (cy : Int) :
    ClaimDecomposer.get_temporal_type claim years cy
      = ClaimDecomposer.temporalSpec claim years cy := by
  unfold ClaimDecomposer.get_temporal_type ClaimDecomposer.temporalSpec
  by_cases hk : (ClaimDecomposer.RECENT_KEYWORDS.any fun kw =>
      strContainsSub (lowerStr claim) (lowerStr kw)) = true
  · rw [if_pos hk, if_pos hk]
  · rw [if_neg hk, if_neg hk]
    by_cases he : years = []
    · subst he; simp
    · have hne : ¬ years.isEmpty := by simpa [List.isEmpty_iff] using he
      have hiff := any_ge_iff_maxInt years cy he
      by_cases hmax : cy ≤ maxInt years
      · rw [if_pos ⟨hne, hmax⟩, if_pos (hiff.mpr hmax)]
      · rw [if_neg fun hc => hmax hc.2, if_neg fun ha => hmax (hiff.mp ha)]

/-- Claim C7: `decompose` extracts only years in `[2010, 2029]`; the
temporal classification follows the spec's priority order — immediacy
keyword ⇒ recent, else any year ≥ current year ⇒ recent, else maximum
year ≤ 2023 ⇒ historical, else general — and `needs_web_search` holds iff
the temporal class is `recent`. -/
theorem c7_theorem (claim : String) (current_year : Int)
    (translate : String → Option String) :
    (∀ y ∈ (ClaimDecomposer.decompose claim current_year translate).years,
        2010 ≤ y ∧ y ≤ 2029)
      ∧ (ClaimDecomposer.decompose claim current_year translate).temporal_type
          = ClaimDecomposer.temporalSpec claim
              (ClaimDecomposer.extract_years claim) current_year
      ∧ ((ClaimDecomposer.decompose claim current_year translate).needs_web_search
            = true
          ↔ (ClaimDecomposer.decompose claim current_year translate).temporal_type
            = "recent") := by
  refine ⟨?_, ?_, ?_⟩
  · intro y hy
    exact scanYears_range false _ y hy
  · exact get_temporal_type_eq_spec claim _ current_year
  · exact decide_eq_true_iff

/-- Claim C7 witness: the claim `"The election was held in 2019"`
(current year 2026) yields the in-range year 2019, the spec-ordered
temporal class (`historical`), and a `needs_web_search` flag consistent
with it. -/
theorem c7_witness :
    (2019 : Int) ∈ (ClaimDecomposer.decompose "The election was held in 2019"
        2026 fun _ => none).years
      ∧ (2010 ≤ (2019 : Int) ∧ (2019 : Int) ≤ 2029)
      ∧ (ClaimDecomposer.decompose "The election was held in 2019" 2026
            fun _ => none).temporal_type
          = ClaimDecomposer.temporalSpec "The election was held in 2019"
              (ClaimDecomposer.extract_years "The election was held in 2019") 2026
      ∧ ((ClaimDecomposer.decompose "The election was held in 2019" 2026
              fun _ => none).needs_web_search = true
          ↔ (ClaimDecomposer.decompose "The election was held in 2019" 2026
              fun _ => none).temporal_type = "recent") :=
  ⟨by decide,
    ( c7_theorem "The election was held in 2019" 2026 fun _ => none).1 2019 (by decide),
    ( c7_theorem "The election was held in 2019" 2026 fun _ => none).2.1,
    ( c7_theorem "The election was held in 2019" 2026 fun _ => none).2.2⟩


/-! ### Claim C8 — weighted score -/

/-- `LABEL_SCORES.get(label, 0)` is at most `1`. -/
theorem labelScoreGet_le_one (s : String) : CrossExaminer.labelScoreGet s ≤ 1 := by
  unfold CrossExaminer.labelScoreGet CrossExaminer.LABEL_SCORES
  split_ifs <;> norm_num

/-- `LABEL_SCORES.get(label, 0)` is at least `-1`. -/
theorem neg_one_le_labelScoreGet (s : String) :
    -1 ≤ CrossExaminer.labelScoreGet s := by
  unfold CrossExaminer.labelScoreGet CrossExaminer.LABEL_SCORES
  split_ifs <;> norm_num

/-- Every source weight is non-negative. -/
theorem SOURCE_WEIGHTS_nonneg (s : String) : 0 ≤ CrossExaminer.SOURCE_WEIGHTS s := by
  unfold CrossExaminer.SOURCE_WEIGHTS
  split_ifs <;> norm_num

/-- The labeled denominator mass is non-negative for in-range
similarities. -/
theorem labeled_weight_sum_nonneg (l : List Doc) (h : ∀ d ∈ l, 0 ≤ d.score) :
    0 ≤ CrossExaminer.labeled_weight_sum l := by
  induction l with
  | nil => simp [CrossExaminer.labeled_weight_sum]
  | cons d ds ih =>
    have hd : 0 ≤ d.score * CrossExaminer.SOURCE_WEIGHTS d.source :=
      mul_nonneg (h d (List.mem_cons_self d ds)) (SOURCE_WEIGHTS_nonneg d.source)
    have hds := ih fun x hx => h x (List.mem_cons_of_mem d hx)
    simp only [CrossExaminer.labeled_weight_sum, List.map_cons, List.sum_cons] at *
    linarith

/-- The unlabeled denominator mass is non-negative for in-range
similarities. -/
theorem unlabeled_weight_sum_nonneg (u : List Doc) (h : ∀ d ∈ u, 0 ≤ d.score) :
    0 ≤ CrossExaminer.unlabeled_weight_sum u := by
  induction u with
  | nil => simp [CrossExaminer.unlabeled_weight_sum]
  | cons d ds ih =>
    have hd : 0 ≤ d.score * (2/10 : ℚ) :=
      mul_nonneg (h d (List.mem_cons_self d ds)) (by norm_num)
    have hds := ih fun x hx => h x (List.mem_cons_of_mem d hx)
    simp only [CrossExaminer.unlabeled_weight_sum, List.map_cons, List.sum_cons] at *
    linarith

/-- The numerator is bounded above by the labeled denominator mass. -/
theorem labeled_score_sum_le (l : List Doc) (h : ∀ d ∈ l, 0 ≤ d.score) :
    CrossExaminer.labeled_score_sum l ≤ CrossExaminer.labeled_weight_sum l := by
  induction l with
  | nil => simp [CrossExaminer.labeled_score_sum, CrossExaminer.labeled_weight_sum]
  | cons d ds ih =>
    have hw : 0 ≤ d.score * CrossExaminer.SOURCE_WEIGHTS d.source :=
      mul_nonneg (h d (List.mem_cons_self d ds)) (SOURCE_WEIGHTS_nonneg d.source)
    have hterm : CrossExaminer.labelScoreGet (lowerStr d.label)
        * (d.score * CrossExaminer.SOURCE_WEIGHTS d.source)
        ≤ d.score * CrossExaminer.SOURCE_WEIGHTS d.source :=
      mul_le_of_le_one_left hw (labelScoreGet_le_one _)
    have hds := ih fun x hx => h x (List.mem_cons_of_mem d hx)
    simp only [CrossExaminer.labeled_score_sum, CrossExaminer.labeled_weight_sum,
      List.map_cons, List.sum_cons] at *
    linarith

/-- The numerator is bounded below by minus the labeled denominator mass. -/
theorem neg_labeled_weight_sum_le (l : List Doc) (h : ∀ d ∈ l, 0 ≤ d.score) :
    -CrossExaminer.labeled_weight_sum l ≤ CrossExaminer.labeled_score_sum l := by
  induction l with
  | nil => simp [CrossExaminer.labeled_score_sum, CrossExaminer.labeled_weight_sum]
  | cons d ds ih =>
    have hw : 0 ≤ d.score * CrossExaminer.SOURCE_WEIGHTS d.source :=
      mul_nonneg (h d (List.mem_cons_self d ds)) (SOURCE_WEIGHTS_nonneg d.source)
    have hterm : -(d.score * CrossExaminer.SOURCE_WEIGHTS d.source)
        ≤ CrossExaminer.labelScoreGet (lowerStr d.label)
          * (d.score * CrossExaminer.SOURCE_WEIGHTS d.source) := by
      have := mul_le_mul_of_nonneg_right (neg_one_le_labelScoreGet (lowerStr d.label)) hw
      linarith
    have hds := ih fun x hx => h x (List.mem_cons_of_mem d hx)
    simp only [CrossExaminer.labeled_score_sum, CrossExaminer.labeled_weight_sum,
      List.map_cons, List.sum_cons] at *
    linarith

/-- Claim C8: for in-range (non-negative) similarities, the weighted score
is always in `[-1, 1]`; it is `0` whenever the accumulated denominator is
zero — in particular on two empty lists; and since unlabeled items enter
only the denominator, adding them never flips (or creates) a non-zero
sign: the score with unlabeled items has exactly the sign of the score
without them. -/
theorem c8_theorem (labeled unlabeled : List Doc)
    (hl : ∀ d ∈ labeled, 0 ≤ d.score) (hu : ∀ d ∈ unlabeled, 0 ≤ d.score) :
    (-1 ≤ CrossExaminer.calculate_weighted_score labeled unlabeled
      ∧ CrossExaminer.calculate_weighted_score labeled unlabeled ≤ 1)
    ∧ (CrossExaminer.labeled_weight_sum labeled
          + CrossExaminer.unlabeled_weight_sum unlabeled = 0 →
        CrossExaminer.calculate_weighted_score labeled unlabeled = 0)
    ∧ CrossExaminer.calculate_weighted_score [] [] = 0
    ∧ (0 < CrossExaminer.calculate_weighted_score labeled [] →
        0 < CrossExaminer.calculate_weighted_score labeled unlabeled)
    ∧ (CrossExaminer.calculate_weighted_score labeled [] < 0 →
        CrossExaminer.calculate_weighted_score labeled unlabeled < 0)
    ∧ (CrossExaminer.calculate_weighted_score labeled [] = 0 →
        CrossExaminer.calculate_weighted_score labeled unlabeled = 0) := by
  have hD := labeled_weight_sum_nonneg labeled hl
  have hE := unlabeled_weight_sum_nonneg unlabeled hu
  have hNle := labeled_score_sum_le labeled hl
  have hNge := neg_labeled_weight_sum_le labeled hl
  have hE0 : CrossExaminer.unlabeled_weight_sum [] = 0 := by
    simp [CrossExaminer.unlabeled_weight_sum]
  have hbase : CrossExaminer.calculate_weighted_score [] [] = 0 := by
    simp [CrossExaminer.calculate_weighted_score, CrossExaminer.labeled_weight_sum,
      CrossExaminer.unlabeled_weight_sum]
  by_cases hT : CrossExaminer.labeled_weight_sum labeled
      + CrossExaminer.unlabeled_weight_sum unlabeled = 0
  · have hz : CrossExaminer.calculate_weighted_score labeled unlabeled = 0 := by
      simp only [CrossExaminer.calculate_weighted_score]
      rw [if_pos hT]
    have hD0 : CrossExaminer.labeled_weight_sum labeled = 0 := by linarith
    have hz0 : CrossExaminer.calculate_weighted_score labeled [] = 0 := by
      simp only [CrossExaminer.calculate_weighted_score]
      rw [if_pos (by rw [hE0, hD0]; norm_num)]
    refine ⟨⟨by rw [hz]; norm_num, by rw [hz]; norm_num⟩, fun _ => hz, hbase,
      ?_, ?_, fun _ => hz⟩
    · intro hpos; rw [hz0] at hpos; exact absurd hpos (lt_irrefl 0)
    · intro hneg; rw [hz0] at hneg; exact absurd hneg (lt_irrefl 0)
  · have hTpos : 0 < CrossExaminer.labeled_weight_sum labeled
        + CrossExaminer.unlabeled_weight_sum unlabeled :=
      lt_of_le_of_ne (by linarith) (Ne.symm hT)
    have hval : CrossExaminer.calculate_weighted_score labeled unlabeled
        = CrossExaminer.labeled_score_sum labeled
          / (CrossExaminer.labeled_weight_sum labeled
            + CrossExaminer.unlabeled_weight_sum unlabeled) := by
      simp only [CrossExaminer.calculate_weighted_score]
      rw [if_neg hT]
    refine ⟨⟨?_, ?_⟩, fun habs => absurd habs hT, hbase, ?_, ?_, ?_⟩
    · rw [hval, le_div_iff₀ hTpos]; linarith
    · rw [hval, div_le_one hTpos]; linarith
    · intro hpos
      by_cases hD0 : CrossExaminer.labeled_weight_sum labeled = 0
      · exfalso
        have : CrossExaminer.calculate_weighted_score labeled [] = 0 := by
          simp only [CrossExaminer.calculate_weighted_score]
          rw [if_pos (by rw [hE0, hD0]; norm_num)]
        rw [this] at hpos; exact absurd hpos (lt_irrefl 0)
      · have hDpos : 0 < CrossExaminer.labeled_weight_sum labeled :=
          lt_of_le_of_ne hD (Ne.symm hD0)
        have hv0 : CrossExaminer.calculate_weighted_score labeled []
            = CrossExaminer.labeled_score_sum labeled
              / CrossExaminer.labeled_weight_sum labeled := by
          simp only [CrossExaminer.calculate_weighted_score]
          rw [hE0]
          rw [if_neg (by rw [add_zero]; exact hD0)]
          rw [add_zero]
        rw [hv0] at hpos
        have hN : 0 < CrossExaminer.labeled_score_sum labeled := by
          rcases div_pos_iff.mp hpos with ⟨hn, -⟩ | ⟨-, hd⟩
          · exact hn
          · exact absurd hDpos (not_lt.mpr hd.le)
        rw [hval]
        exact div_pos hN hTpos
    · intro hneg
      by_cases hD0 : CrossExaminer.labeled_weight_sum labeled = 0
      · exfalso
        have : CrossExaminer.calculate_weighted_score labeled [] = 0 := by
          simp only [CrossExaminer.calculate_weighted_score]
          rw [if_pos (by rw [hE0, hD0]; norm_num)]
        rw [this] at hneg; exact absurd hneg (lt_irrefl 0)
      · have hDpos : 0 < CrossExaminer.labeled_weight_sum labeled :=
          lt_of_le_of_ne hD (Ne.symm hD0)
        have hv0 : CrossExaminer.calculate_weighted_score labeled []
            = CrossExaminer.labeled_score_sum labeled
              / CrossExaminer.labeled_weight_sum labeled := by
          simp only [CrossExaminer.calculate_weighted_score]
          rw [hE0]
          rw [if_neg (by rw [add_zero]; exact hD0)]
          rw [add_zero]
        rw [hv0] at hneg
        have hN : CrossExaminer.labeled_score_sum labeled < 0 := by
          rcases div_neg_iff.mp hneg with ⟨-, hd⟩ | ⟨hn, -⟩
          · exact absurd hDpos (not_lt.mpr hd.le)
          · exact hn
        rw [hval]
        exact div_neg_of_neg_of_pos hN hTpos
    · intro hzero
      by_cases hD0 : CrossExaminer.labeled_weight_sum labeled = 0
      · have hN0 : CrossExaminer.labeled_score_sum labeled = 0 := by
          rw [hD0] at hNle hNge
          linarith
        rw [hval, hN0, zero_div]
      · have hDpos : 0 < CrossExaminer.labeled_weight_sum labeled :=
          lt_of_le_of_ne hD (Ne.symm hD0)
        have hv0 : CrossExaminer.calculate_weighted_score labeled []
            = CrossExaminer.labeled_score_sum labeled
              / CrossExaminer.labeled_weight_sum labeled := by
          simp only [CrossExaminer.calculate_weighted_score]
          rw [hE0]
          rw [if_neg (by rw [add_zero]; exact hD0)]
          rw [add_zero]
        rw [hv0] at hzero
        have hN0 : CrossExaminer.labeled_score_sum labeled = 0 := by
          rcases div_eq_zero_iff.mp hzero with hn | hd
          · exact hn
          · exact absurd hd hD0
        rw [hval, hN0, zero_div]

unseal Rat.mul Rat.inv in
/-- Claim C8 witness: the concrete one-labeled/one-unlabeled bundle has
its weighted score in `[-1, 1]`. -/
theorem c8_witness :
    (∀ d ∈ labC8, 0 ≤ d.score) ∧ (∀ d ∈ unlC8, 0 ≤ d.score)
      ∧ (-1 ≤ CrossExaminer.calculate_weighted_score labC8 unlC8
          ∧ CrossExaminer.calculate_weighted_score labC8 unlC8 ≤ 1) :=
  ⟨by decide, by decide, (c8_theorem labC8 unlC8 (by decide) (by decide)).1⟩


/-! ### Claims C6 and C10 — two-tier cache -/

/-- Reading the key just written returns the written value. -/
theorem alGet_alSet_self {α : Type} (k : String) (v : α)
    (al : List (String × α)) :
    MemoryStore.alGet k (MemoryStore.alSet k v al) = some v := by
  simp [MemoryStore.alGet, MemoryStore.alSet]

/-- Reading a deleted key misses. -/
theorem alGet_alDel_self {α : Type} (k : String) (al : List (String × α)) :
    MemoryStore.alGet k (MemoryStore.alDel k al) = none := by
  induction al with
  | nil => simp [MemoryStore.alGet, MemoryStore.alDel]
  | cons p ps ih =>
    by_cases h : p.1 = k
    · simpa [MemoryStore.alDel, List.filter_cons, h] using ih
    · simpa [MemoryStore.alDel, MemoryStore.alGet, List.filter_cons, h] using ih

/-- A short-term `set` followed by `get` on the same claim hits, on both
the Redis branch and the fallback branch. -/
theorem stm_get_set (m : MemoryStore.ShortTermMemory) (c : String)
    (r : MemoryStore.JValue) :
    (m.set c r).get c = some r := by
  obtain ⟨cl, fb⟩ := m
  cases cl <;>
    simp [MemoryStore.ShortTermMemory.set, MemoryStore.ShortTermMemory.get,
      alGet_alSet_self]

/-- A short-term `get` after `delete` misses, on both branches. -/
theorem stm_get_delete (m : MemoryStore.ShortTermMemory) (c : String) :
    (m.delete c).get c = none := by
  obtain ⟨cl, fb⟩ := m
  cases cl <;>
    simp [MemoryStore.ShortTermMemory.delete, MemoryStore.ShortTermMemory.get,
      alGet_alDel_self]

/-- Claim C6: `put(c, r); get(c) = r` on the two-tier cache, for every
tier mode (healthy Redis / in-process fallback short-term map, healthy
PostgreSQL / in-process fallback long-term store) and every truthy
(well-formed, non-empty) result — the write-through `store_result` places
`r` in the short-term tier, and `get_cached_result` serves it from there. -/
theorem c6_theorem (m : MemoryStore.MemoryManager) (claim : String)
    (r : MemoryStore.JValue) (now : String) (h : MemoryStore.truthy r = true) :
    (MemoryStore.get_cached_result
        (MemoryStore.store_result m claim r now) claim).1 = some r := by
  simp [MemoryStore.get_cached_result, MemoryStore.store_result, stm_get_set, h]

/-- Claim C6 witness: round trip of a concrete verification result on the
fully degraded manager. -/
theorem c6_witness :
    MemoryStore.truthy exResult = true
      ∧ (MemoryStore.get_cached_result
            (MemoryStore.store_result exManagerDegraded "test claim" exResult
              "2026-10-12T00:00:00") "test claim").1 = some exResult ∧
      (MemoryStore.get_cached_result
            (MemoryStore.store_result exManagerHealthy "test claim" exResult
              "2026-10-12T00:00:00") "test claim").1 = some exResult :=
  ⟨rfl,
    c6_theorem exManagerDegraded "test claim" exResult "2026-10-12T00:00:00" rfl,
    c6_theorem exManagerHealthy "test claim" exResult "2026-10-12T00:00:00" rfl⟩

/-- The four-field fallback summary is truthy. -/
theorem truthy_fallbackSummary (c : String) (r : MemoryStore.JValue)
    (n : String) :
    MemoryStore.truthy (MemoryStore.fallbackSummary c r n) = true := rfl

/-- The fallback summary has no `evidence` key. -/
theorem fallbackSummary_no_evidence (c : String) (r : MemoryStore.JValue)
    (n : String) :
    MemoryStore.hasKey (MemoryStore.fallbackSummary c r n) "evidence" = false := rfl

/-- Claim C10: with the long-term tier degraded to its fallback map,
`store_result` persists only the four-field summary
`(claim_text, verdict label, confidence, verified_at)`; once the
short-term entry is gone (deleted/expired), `get_cached_result` answers
from the long-term fallback with that summary, which differs from every
result `r` that carries an `evidence` field. -/
theorem c10_theorem (m : MemoryStore.MemoryManager) (claim : String)
    (r : MemoryStore.JValue) (now : String)
    (hconn : m.long_term.conn = none)
    (hk : MemoryStore.hasKey r "evidence" = true) :
    (MemoryStore.get_cached_result
        { short_term :=
            (MemoryStore.store_result m claim r now).short_term.delete claim
          long_term := (MemoryStore.store_result m claim r now).long_term }
        claim).1
      = some (MemoryStore.fallbackSummary claim r now)
      ∧ MemoryStore.fallbackSummary claim r now ≠ r := by
  constructor
  · simp only [MemoryStore.get_cached_result, MemoryStore.store_result,
      stm_get_delete, MemoryStore.LongTermMemory.store, hconn,
      MemoryStore.LongTermMemory.get, alGet_alSet_self, truthy_fallbackSummary]
    simp
  · intro he
    have hcongr : MemoryStore.hasKey (MemoryStore.fallbackSummary claim r now)
        "evidence" = MemoryStore.hasKey r "evidence" := by rw [he]
    rw [fallbackSummary_no_evidence, hk] at hcongr
    exact Bool.noConfusion hcongr

/-- Claim C10 witness: on the degraded manager, storing `exResult` (which
has an `evidence` field) and losing the short-term entry yields the
four-field summary, not `exResult`. -/
theorem c10_witness :
    (MemoryStore.get_cached_result
        { short_term :=
            (MemoryStore.store_result exManagerDegraded "tc" exResult
              "2026-10-12T00:00:00").short_term.delete "tc"
          long_term := (MemoryStore.store_result exManagerDegraded "tc" exResult
              "2026-10-12T00:00:00").long_term } "tc").1
      = some (MemoryStore.fallbackSummary "tc" exResult "2026-10-12T00:00:00")
      ∧ MemoryStore.fallbackSummary "tc" exResult "2026-10-12T00:00:00" ≠ exResult :=
  c10_theorem exManagerDegraded "tc" exResult "2026-10-12T00:00:00" rfl rfl
